import Mathlib

/-!
# SuperTux video layer: `Surface` and `Canvas`

A shallow embedding of `src/video/surface.cpp` and of the request queue declared in
`src/video/canvas.hpp`, followed by the properties checked on them.

Conventions of the embedding:

* `float` values are only stored and copied by the code below, never computed with, so a
  finite `float` is represented by the rational number it denotes;
* an `int` is a 32-bit two's-complement integer; the only arithmetic on `int` values is the
  subtraction in `Rect::get_width` / `Rect::get_height`, whose result is reduced to 32 bits
  (layers of drawing requests are only compared, never computed with);
* a `TexturePtr` is a `std::shared_ptr`, which may be null: `Option Texture`;
* undefined behaviour that the code can run into (reading a `std::vector` past its end,
  dereferencing a null `TexturePtr`) is an explicit `Fault` in `Except`.
-/

namespace SuperTux

/-! ## Collaborating types that `surface.cpp` uses -/

/-- The C++ `float`, as the rational it denotes (values are copied, never computed). -/
abbrev float := Rat

/-- Modelled from the spec: `math/vector.hpp` is not among the sources. A `Vector` is a pair of
`float` coordinates `x`, `y`. -/
structure Vector where
  x : float
  y : float
deriving DecidableEq

/-- Modelled from the spec: the default constructor `Vector()` of `math/vector.hpp`, which is
not among the sources. `from_file` and `from_texture` pass `Vector()` as the translation of
the "identity transform", and the spec calls the default translation "zero translate": the
default-constructed vector is `(0, 0)`. -/
def Vector.default : Vector := ⟨0, 0⟩

/-- The value that a mathematical integer has once reduced to a 32-bit two's-complement
`int`: unchanged from -2147483648 to 2147483647, wrapped around outside. -/
def wrap_int (n : Int) : Int := (n + 2147483648) % 4294967296 - 2147483648

/-- The C++ `int`: the integers from -2147483648 to 2147483647. -/
structure int where
  val : Int
  lower : -2147483648 ≤ val
  upper : val ≤ 2147483647
deriving DecidableEq

/-- The `int` that a mathematical integer reduces to. -/
def to_int (n : Int) : int :=
  { val := wrap_int n
    lower := by unfold wrap_int; omega
    upper := by unfold wrap_int; omega }

/-- Integer literals of type `int`. -/
instance (n : Nat) : OfNat int n := ⟨to_int n⟩

/-- Modelled from the spec: `math/rect.hpp` is not among the sources. An integer rectangle
given by its edges, as built by `Rect(left, top, right, bottom)`. -/
structure Rect where
  left : int
  top : int
  right : int
  bottom : int
deriving DecidableEq

/-- Modelled from the spec: `Rect::get_width`, the horizontal extent `right - left` of the
rectangle, an `int`. When the difference does not fit in 32 bits the `int` subtraction
overflows: the result is the difference wrapped around, as the two's-complement machine
subtraction gives it. -/
def Rect.get_width (r : Rect) : int := to_int (r.right.val - r.left.val)

/-- Modelled from the spec: `Rect::get_height`, the vertical extent `bottom - top` of the
rectangle, an `int`, wrapped around on overflow like `Rect::get_width`. -/
def Rect.get_height (r : Rect) : int := to_int (r.bottom.val - r.top.val)

/-- Modelled from the spec: `Rect::contains`, whether `other` lies within `r`. -/
def Rect.contains (r other : Rect) : Bool :=
  decide (r.left.val ≤ other.left.val) && decide (r.top.val ≤ other.top.val) &&
  decide (other.right.val ≤ r.right.val) && decide (other.bottom.val ≤ r.bottom.val)

/-- Modelled from the spec: `video/flip.hpp` is not among the sources. `Flip` is a bitmask
(none / horizontal / vertical) combined with `^`: an unsigned integer, on which `^` cannot
overflow. -/
abbrev Flip := Nat

/-- Modelled from the spec: the empty flip bitmask. -/
def NO_FLIP : Flip := 0

/-- Modelled from the spec: the bit of the bitmask for a horizontal flip. The position of the
bit is not fixed by the sources; the properties below need only that the horizontal and the
vertical flip are two different single bits. -/
def HORIZONTAL_FLIP : Flip := 1

/-- Modelled from the spec: the bit of the bitmask for a vertical flip. -/
def VERTICAL_FLIP : Flip := 2

/-- Modelled from the spec: `video/texture.hpp` is not among the sources. A loaded texture:
`handle` tells texture objects apart, the other two fields are what `get_image_width()` and
`get_image_height()` return. -/
structure Texture where
  handle : Nat
  image_width : int
  image_height : int
deriving DecidableEq

/-- A `std::shared_ptr<Texture>`; `none` is the null pointer `TexturePtr()`. -/
abbrev TexturePtr := Option Texture

/-- Modelled from the spec: the sub-mapping stored under `diffuse-texture` or
`displacement-texture`. `from_reader` hands it to the texture manager unread, so it is kept
as an uninterpreted token. -/
structure TextureMapping where
  token : Nat
deriving DecidableEq

/-- Modelled from the spec: `util/reader_mapping.hpp` is not among the sources. A mapping is
represented by what `ReaderMapping::get(key, out)` answers for each of the seven keys that
`from_reader` asks for: `none` when `get` returns `false` (key absent, `out` untouched),
`some v` when it returns `true` after storing `v` in `out`. A list-valued key may hold any
number of elements. -/
structure ReaderMapping where
  diffuse_texture : Option TextureMapping
  displacement_texture : Option TextureMapping
  translate : Option (List float)
  scale : Option (List float)
  rotate : Option float
  rotate_center : Option (List float)
  flip : Option (List Bool)

/-- Modelled from the spec: `video/texture_manager.hpp` is not among the sources. The three
overloads of `TextureManager::get` that `surface.cpp` calls; each returns a shared handle to
a texture. -/
structure TextureManager where
  get_file : String → Texture
  get_file_rect : String → Rect → Texture
  get_mapping : TextureMapping → Option Rect → Texture

/-- The two ways in which `surface.cpp` can leave defined behaviour. -/
inductive Fault where
  | out_of_bounds
  | null_dereference
deriving DecidableEq

/-- The read `v[i]` of a `std::vector`: defined only for `i < v.size()`. -/
def vector_at {α : Type} (v : List α) (i : Nat) : Except Fault α :=
  match v[i]? with
  | some a => Except.ok a
  | none => Except.error Fault.out_of_bounds

/-! ## `Surface` -/

/-- The data members of `class Surface`. -/
structure Surface where
  m_diffuse_texture : TexturePtr
  m_displacement_texture : TexturePtr
  m_region : Rect
  m_translate : Vector
  m_scale : Vector
  m_rotate : float
  m_rotate_center : Vector
  m_flip : Flip
deriving DecidableEq

namespace Surface

/-- The constructor `Surface::Surface(diffuse, displacement, translate, scale, rotate,
rotate_center, flip)` (surface.cpp, lines 99-115): the region is the whole image of the
diffuse texture, which is dereferenced to read its size. -/
def new (diffuse_texture displacement_texture : TexturePtr) (translate scale : Vector)
    (rotate : float) (rotate_center : Vector) (flip : Flip) : Except Fault Surface :=
  match diffuse_texture with
  | none => Except.error Fault.null_dereference
  | some t =>
    Except.ok
      { m_diffuse_texture := diffuse_texture
        m_displacement_texture := displacement_texture
        m_region := Rect.mk 0 0 t.image_width t.image_height
        m_translate := translate
        m_scale := scale
        m_rotate := rotate
        m_rotate_center := rotate_center
        m_flip := flip }

/-- The constructor `Surface::Surface(diffuse, displacement, region, translate, scale, rotate,
rotate_center, flip)` (surface.cpp, lines 117-133): every member is copied from its
argument. -/
def new_region (diffuse_texture displacement_texture : TexturePtr) (region : Rect)
    (translate scale : Vector) (rotate : float) (rotate_center : Vector) (flip : Flip) :
    Surface :=
  { m_diffuse_texture := diffuse_texture
    m_displacement_texture := displacement_texture
    m_region := region
    m_translate := translate
    m_scale := scale
    m_rotate := rotate
    m_rotate_center := rotate_center
    m_flip := flip }

/-- The factory `Surface::from_reader` (surface.cpp, lines 24-82), statement by statement.
Each local starts at its default-constructed value and is overwritten only inside the `if` on
the result of `mapping.get`. -/
def from_reader (tm : TextureManager) (mapping : ReaderMapping) (rect : Option Rect) :
    Except Fault Surface := do
  let mut diffuse_texture : TexturePtr := none
  if let some diffuse_texture_mapping := mapping.diffuse_texture then
    diffuse_texture := some (tm.get_mapping diffuse_texture_mapping rect)
  let mut displacement_texture : TexturePtr := none
  if let some displacement_texture_mapping := mapping.displacement_texture then
    displacement_texture := some (tm.get_mapping displacement_texture_mapping rect)
  let mut translate : Vector := Vector.default
  if let some translate_v := mapping.translate then
    translate := { translate with x := ← vector_at translate_v 0 }
    translate := { translate with y := ← vector_at translate_v 1 }
  let mut scale : Vector := Vector.default
  if let some scale_v := mapping.scale then
    scale := { scale with x := ← vector_at scale_v 0 }
    scale := { scale with y := ← vector_at scale_v 1 }
  let mut rotate : float := 0
  if let some r := mapping.rotate then
    rotate := r
  let mut rotate_center : Vector := Vector.default
  if let some rotate_center_v := mapping.rotate_center then
    rotate_center := { rotate_center with x := ← vector_at rotate_center_v 0 }
    rotate_center := { rotate_center with y := ← vector_at rotate_center_v 1 }
  let mut flip : Flip := NO_FLIP
  if let some flip_v := mapping.flip then
    flip := flip ^^^ (if (← vector_at flip_v 0) then HORIZONTAL_FLIP else NO_FLIP)
    flip := flip ^^^ (if (← vector_at flip_v 1) then VERTICAL_FLIP else NO_FLIP)
  new diffuse_texture displacement_texture translate scale rotate rotate_center flip

/-- The factory `Surface::from_file` (surface.cpp, lines 84-97). -/
def from_file (tm : TextureManager) (filename : String) (rect : Option Rect) :
    Except Fault Surface :=
  match rect with
  | some r =>
    let texture : TexturePtr := some (tm.get_file_rect filename r)
    new texture none Vector.default (Vector.mk 1 1) 0 Vector.default NO_FLIP
  | none =>
    let texture : TexturePtr := some (tm.get_file filename)
    new texture none Vector.default (Vector.mk 1 1) 0 Vector.default NO_FLIP

/-- The factory `Surface::from_texture` (surface.cpp, lines 135-139). -/
def from_texture (texture : TexturePtr) : Except Fault Surface :=
  new texture none Vector.default (Vector.mk 1 1) 0 Vector.default NO_FLIP

/-- The method `Surface::clone` (surface.cpp, lines 145-157). -/
def clone (self : Surface) (flip : Flip) : Surface :=
  new_region self.m_diffuse_texture self.m_displacement_texture self.m_region
    self.m_translate self.m_scale self.m_rotate self.m_rotate_center (self.m_flip ^^^ flip)

/-- The method `Surface::region` (surface.cpp, lines 159-171). -/
def region (self : Surface) (rect : Rect) : Surface :=
  new_region self.m_diffuse_texture self.m_displacement_texture rect
    self.m_translate self.m_scale self.m_rotate self.m_rotate_center self.m_flip

/-- The getter `Surface::get_texture` (surface.cpp, lines 173-177). -/
def get_texture (self : Surface) : TexturePtr := self.m_diffuse_texture

/-- The getter `Surface::get_displacement_texture` (surface.cpp, lines 179-183). -/
def get_displacement_texture (self : Surface) : TexturePtr := self.m_displacement_texture

/-- The getter `Surface::get_width` (surface.cpp, lines 185-189). -/
def get_width (self : Surface) : int := self.m_region.get_width

/-- The getter `Surface::get_height` (surface.cpp, lines 191-195). -/
def get_height (self : Surface) : int := self.m_region.get_height

end Surface

/-! ## Auxiliary definitions used to state and prove the properties of `Surface` -/

/-- What one `if (mapping.get(key, v)) { vec.x = v[0]; vec.y = v[1]; }` block of `from_reader`
leaves in a default-constructed `Vector`, as a function of the answer of `get`. -/
def read_vector (entry : Option (List float)) : Except Fault Vector :=
  match entry with
  | none => pure Vector.default
  | some v => do
    let x ← vector_at v 0
    let y ← vector_at v 1
    pure (Vector.mk x y)

/-- What the `flip` block of `from_reader` leaves in `flip`, as a function of the answer of
`get`. -/
def read_flip (entry : Option (List Bool)) : Except Fault Flip :=
  match entry with
  | none => pure NO_FLIP
  | some v => do
    let h ← vector_at v 0
    let w ← vector_at v 1
    pure ((NO_FLIP ^^^ (if h then HORIZONTAL_FLIP else NO_FLIP))
            ^^^ (if w then VERTICAL_FLIP else NO_FLIP))

/-- Every list-valued key of the mapping that is present holds at least two elements. -/
def ReaderMapping.lists_have_two (m : ReaderMapping) : Bool :=
  m.translate.all (fun v => decide (2 ≤ v.length)) &&
  m.scale.all (fun v => decide (2 ≤ v.length)) &&
  m.rotate_center.all (fun v => decide (2 ≤ v.length)) &&
  m.flip.all (fun v => decide (2 ≤ v.length))

/-- The pixel bounds `(0, 0, image_width, image_height)` of a texture. -/
def Texture.bounds (t : Texture) : Rect := Rect.mk 0 0 t.image_width t.image_height

/-- The invariant of the spec: the region of the surface lies within the pixel bounds of its
diffuse texture. -/
def Surface.region_in_bounds (s : Surface) : Bool :=
  match s.m_diffuse_texture with
  | some t => t.bounds.contains s.m_region
  | none => false

/-- Whether `rect` lies within the pixel bounds of the diffuse texture of `s`. -/
def Surface.rect_in_bounds (s : Surface) (rect : Rect) : Bool :=
  match s.m_diffuse_texture with
  | some t => t.bounds.contains rect
  | none => false

/-- The surfaces obtainable through the public operations: the three factories, then `clone`
with any flip and `region` with any rectangle that `allowed` admits for the surface it is
called on. -/
inductive Obtainable (tm : TextureManager) (allowed : Surface → Rect → Bool) : Surface → Prop
  | of_texture (texture : TexturePtr) (s : Surface) :
      Surface.from_texture texture = Except.ok s → Obtainable tm allowed s
  | of_file (filename : String) (rect : Option Rect) (s : Surface) :
      Surface.from_file tm filename rect = Except.ok s → Obtainable tm allowed s
  | of_reader (mapping : ReaderMapping) (rect : Option Rect) (s : Surface) :
      Surface.from_reader tm mapping rect = Except.ok s → Obtainable tm allowed s
  | clone (s : Surface) (flip : Flip) :
      Obtainable tm allowed s → Obtainable tm allowed (s.clone flip)
  | region (s : Surface) (rect : Rect) :
      Obtainable tm allowed s → allowed s rect = true → Obtainable tm allowed (s.region rect)

/-- A 64 x 32 texture for the concrete evaluations below. -/
def sample_texture : Texture := ⟨1, 64, 32⟩

/-- A texture manager for the concrete evaluations below: every lookup yields
`sample_texture`, cropped to the sub-rectangle when one is given by file name. -/
def sample_manager : TextureManager :=
  { get_file := fun _ => sample_texture
    get_file_rect := fun _ r => ⟨2, r.get_width, r.get_height⟩
    get_mapping := fun _ _ => sample_texture }

/-- A mapping that holds a `diffuse-texture` and nothing else. -/
def mapping_texture_only : ReaderMapping :=
  { diffuse_texture := some ⟨0⟩, displacement_texture := none, translate := none,
    scale := none, rotate := none, rotate_center := none, flip := none }

/-- The mapping of the round-trip example of the spec: `translate=[1,2]`, `scale=[3,4]`,
`rotate=5`, `flip=[true,false]` and no other key. -/
def mapping_round_trip : ReaderMapping :=
  { diffuse_texture := none, displacement_texture := none, translate := some [1, 2],
    scale := some [3, 4], rotate := some 5, rotate_center := none,
    flip := some [true, false] }

/-- The mapping `mapping_round_trip` with a `diffuse-texture` added. -/
def mapping_round_trip_textured : ReaderMapping :=
  { mapping_round_trip with diffuse_texture := some ⟨0⟩ }

/-- A mapping with a `diffuse-texture`, the four keys of the round-trip example, and a
`rotate-center` list of a single element. -/
def mapping_short_center : ReaderMapping :=
  { mapping_round_trip_textured with rotate_center := some [7] }

/-- A mapping with a `diffuse-texture` whose `translate` list has a single element. -/
def mapping_short_translate : ReaderMapping :=
  { mapping_texture_only with translate := some [1] }

/-- The `Surface` objects allocated so far; the address of an object is its index. -/
abbrev SurfaceStore := List Surface

/-- A call `self->region(rect)` on the object at address `self`: `new Surface(...)` allocates
the surface computed by `Surface::region` at a fresh address, which is returned. Calling
through an address that holds no object is a null dereference. -/
def SurfaceStore.region (store : SurfaceStore) (self : Nat) (rect : Rect) :
    Except Fault (SurfaceStore × Nat) :=
  match store[self]? with
  | none => Except.error Fault.null_dereference
  | some s => Except.ok (store ++ [s.region rect], store.length)

/-! ## `Canvas` -/

/-- Image/gradient backgrounds (canvas.hpp, line 41). -/
def LAYER_BACKGROUND0 : Int := -300
/-- Particle backgrounds (canvas.hpp, line 43). -/
def LAYER_BACKGROUND1 : Int := -200
/-- Tilemap backgrounds (canvas.hpp, line 45). -/
def LAYER_BACKGROUNDTILES : Int := -100
/-- Solid tilemaps (canvas.hpp, line 47). -/
def LAYER_TILES : Int := 0
/-- Ordinary objects (canvas.hpp, line 49). -/
def LAYER_OBJECTS : Int := 50
/-- Objects that pass through walls (canvas.hpp, line 51). -/
def LAYER_FLOATINGOBJECTS : Int := 150
/-- Foreground tilemaps (canvas.hpp, line 53). -/
def LAYER_FOREGROUNDTILES : Int := 200
/-- First foreground layer (canvas.hpp, line 55). -/
def LAYER_FOREGROUND0 : Int := 300
/-- Second foreground layer (canvas.hpp, line 57). -/
def LAYER_FOREGROUND1 : Int := 400
/-- The layer of the lightmap (canvas.hpp, line 59). -/
def LAYER_LIGHTMAP : Int := 450
/-- Hitpoints, time, coins (canvas.hpp, line 62). -/
def LAYER_HUD : Int := 500
/-- Menus, mouse, console (canvas.hpp, line 64). -/
def LAYER_GUI : Int := 600

/-- Modelled from the spec: `struct DrawingRequest` is only forward-declared in canvas.hpp.
Per the spec it is an uninterpreted payload (here a token standing for the `draw_*` method
called and its arguments) together with the integer layer. -/
structure DrawingRequest where
  payload : Nat
  layer : Int
deriving DecidableEq

/-- Modelled from the spec: the `Renderer` is only forward-declared in canvas.hpp. It is
represented by the requests submitted to it so far, oldest first. -/
abbrev Renderer := List DrawingRequest

/-- The data member `m_requests` of `class Canvas` (canvas.hpp, line 180); the context and
the arena are left out, they do not take part in the ordering of requests. -/
structure Canvas where
  m_requests : List DrawingRequest

namespace Canvas

/-- The enumeration `Canvas::Filter` (canvas.hpp, line 129). -/
inductive Filter where
  | BELOW_LIGHTMAP
  | ABOVE_LIGHTMAP
  | ALL
deriving DecidableEq

/-- Modelled from the spec: the bodies of the `draw_*` methods are in `video/canvas.cpp`,
which is not among the sources. Each `draw_*` call constructs a request and appends it to the
request list. -/
def draw (self : Canvas) (request : DrawingRequest) : Canvas :=
  { self with m_requests := self.m_requests ++ [request] }

/-- Modelled from the spec: `Canvas::clear` of `video/canvas.cpp`, which is not among the
sources. It discards all pending requests. -/
def clear (self : Canvas) : Canvas :=
  { self with m_requests := [] }

/-- Modelled from the spec: the selection made by `Canvas::render` of `video/canvas.cpp`,
which is not among the sources. `BELOW_LIGHTMAP` selects the layers below `LAYER_LIGHTMAP`,
`ABOVE_LIGHTMAP` the layers from `LAYER_LIGHTMAP` on, `ALL` every request. -/
def selects (filter : Filter) (request : DrawingRequest) : Bool :=
  match filter with
  | Filter.BELOW_LIGHTMAP => decide (request.layer < LAYER_LIGHTMAP)
  | Filter.ABOVE_LIGHTMAP => decide (LAYER_LIGHTMAP ≤ request.layer)
  | Filter.ALL => true

/-- Modelled from the spec: one step of the stable ordering by layer. The request goes in
front of the first queued request whose layer is not below its own. -/
def insert_by_layer (request : DrawingRequest) : List DrawingRequest → List DrawingRequest
  | [] => [request]
  | r :: rest =>
    if request.layer ≤ r.layer then request :: r :: rest
    else r :: insert_by_layer request rest

/-- Modelled from the spec: the ascending, stable ordering by layer that `Canvas::render`
applies (insertion order preserved within a layer). -/
def sort_by_layer : List DrawingRequest → List DrawingRequest
  | [] => []
  | r :: rest => insert_by_layer r (sort_by_layer rest)

/-- Modelled from the spec: `Canvas::render` of `video/canvas.cpp`, which is not among the
sources. The requests that `filter` selects are submitted to the renderer in ascending layer
order, stable within a layer. -/
def render (self : Canvas) (renderer : Renderer) (filter : Filter) : Renderer :=
  renderer ++ sort_by_layer (self.m_requests.filter (selects filter))

end Canvas

/-- The canvas after the `draw_*` calls that construct `requests`, in this order. -/
def draw_all (canvas : Canvas) (requests : List DrawingRequest) : Canvas :=
  requests.foldl Canvas.draw canvas

/-! ## Lemmas on `from_reader` -/

theorem int_eq_of_val_eq (a b : int) (h : a.val = b.val) : a = b := by
  cases a
  cases b
  simp only at h
  subst h
  rfl

/-- A difference that fits in an `int` is not changed by the reduction to 32 bits. -/
theorem to_int_val_of_fits (n : Int) (hlo : -2147483648 ≤ n) (hhi : n ≤ 2147483647) :
    (to_int n).val = n := by
  show wrap_int n = n
  unfold wrap_int
  omega

/-- Subtracting the `int` 0 from an `int` gives it back. -/
theorem to_int_sub_zero (x : int) : to_int (x.val - (0 : int).val) = x := by
  apply int_eq_of_val_eq
  have h0 : (0 : int).val = 0 := rfl
  rw [h0, Int.sub_zero]
  exact to_int_val_of_fits x.val x.lower x.upper

/-- On the rectangle `(-2147483648, -1, 2147483647, 2147483647)` the two subtractions
overflow: the width is -1 and the height -2147483648. -/
theorem get_width_overflow :
    (Rect.mk (to_int (-2147483648)) (to_int (-1)) 2147483647 2147483647).get_width.val = -1 ∧
    (Rect.mk (to_int (-2147483648)) (to_int (-1)) 2147483647 2147483647).get_height.val
      = -2147483648 :=
  ⟨rfl, rfl⟩

theorem bind_ok_inv {α β : Type} (x : Except Fault α) (f : α → Except Fault β) (b : β)
    (h : (x >>= f) = Except.ok b) : ∃ a, x = Except.ok a ∧ f a = Except.ok b := by
  cases x with
  | error e => simp [bind, Except.bind] at h
  | ok a => exact ⟨a, rfl, h⟩

/-- The body of `from_reader` is the sequence of its five reads followed by the constructor
call. -/
theorem from_reader_eq (tm : TextureManager) (m : ReaderMapping) (rect : Option Rect) :
    Surface.from_reader tm m rect =
      (read_vector m.translate >>= fun translate =>
       read_vector m.scale >>= fun scale =>
       read_vector m.rotate_center >>= fun rotate_center =>
       read_flip m.flip >>= fun flip =>
       Surface.new (m.diffuse_texture.map (fun d => tm.get_mapping d rect))
         (m.displacement_texture.map (fun d => tm.get_mapping d rect))
         translate scale (m.rotate.getD 0) rotate_center flip) := by
  obtain ⟨d, dp, t, sc, r, rc, f⟩ := m
  cases d <;> cases dp <;> cases t <;> cases sc <;> cases r <;> cases rc <;> cases f <;>
    simp only [Surface.from_reader, read_vector, read_flip, bind_assoc, pure_bind,
      Option.map, Option.getD]

theorem vector_at_zero {α : Type} (a : α) (rest : List α) :
    vector_at (a :: rest) 0 = Except.ok a := by
  simp [vector_at]

theorem vector_at_one {α : Type} (a b : α) (rest : List α) :
    vector_at (a :: b :: rest) 1 = Except.ok b := by
  simp [vector_at]

theorem vector_at_nil {α : Type} (i : Nat) :
    vector_at ([] : List α) i = Except.error Fault.out_of_bounds := by
  simp [vector_at]

theorem vector_at_single_one {α : Type} (a : α) :
    vector_at [a] 1 = Except.error Fault.out_of_bounds := by
  simp [vector_at]

theorem read_vector_two (a b : float) (rest : List float) :
    read_vector (some (a :: b :: rest)) = Except.ok ⟨a, b⟩ := by
  simp only [read_vector, vector_at_zero, vector_at_one]
  rfl

theorem read_flip_two (h w : Bool) (rest : List Bool) :
    read_flip (some (h :: w :: rest)) =
      Except.ok ((NO_FLIP ^^^ (if h then HORIZONTAL_FLIP else NO_FLIP))
        ^^^ (if w then VERTICAL_FLIP else NO_FLIP)) := by
  simp only [read_flip, vector_at_zero, vector_at_one]
  rfl

/-- A present list of at least two elements, or an absent key, is read without fault. -/
theorem read_vector_ok (entry : Option (List float))
    (h : entry.all (fun v => decide (2 ≤ v.length)) = true) :
    ∃ vec, read_vector entry = Except.ok vec := by
  cases entry with
  | none => exact ⟨Vector.default, rfl⟩
  | some v =>
    rcases v with _ | ⟨a, _ | ⟨b, rest⟩⟩
    · simp at h
    · simp at h
    · exact ⟨⟨a, b⟩, read_vector_two a b rest⟩

theorem read_flip_ok (entry : Option (List Bool))
    (h : entry.all (fun v => decide (2 ≤ v.length)) = true) :
    ∃ flip, read_flip entry = Except.ok flip := by
  cases entry with
  | none => exact ⟨NO_FLIP, rfl⟩
  | some v =>
    rcases v with _ | ⟨a, _ | ⟨b, rest⟩⟩
    · simp at h
    · simp at h
    · exact ⟨_, read_flip_two a b rest⟩

/-- A present list of fewer than two elements makes the read leave the list. -/
theorem read_vector_short (entry : Option (List float))
    (h : entry.all (fun v => decide (2 ≤ v.length)) = false) :
    read_vector entry = Except.error Fault.out_of_bounds := by
  cases entry with
  | none => simp at h
  | some v =>
    rcases v with _ | ⟨a, _ | ⟨b, rest⟩⟩
    · simp only [read_vector, vector_at_nil]; rfl
    · simp only [read_vector, vector_at_zero, vector_at_single_one]; rfl
    · simp at h

theorem read_flip_short (entry : Option (List Bool))
    (h : entry.all (fun v => decide (2 ≤ v.length)) = false) :
    read_flip entry = Except.error Fault.out_of_bounds := by
  cases entry with
  | none => simp at h
  | some v =>
    rcases v with _ | ⟨a, _ | ⟨b, rest⟩⟩
    · simp only [read_flip, vector_at_nil]; rfl
    · simp only [read_flip, vector_at_zero, vector_at_single_one]; rfl
    · simp at h

theorem new_ne_out_of_bounds (d dp : TexturePtr) (t sc : Vector) (r : float) (rc : Vector)
    (f : Flip) : Surface.new d dp t sc r rc f ≠ Except.error Fault.out_of_bounds := by
  cases d <;> simp [Surface.new]

theorem new_region_in_bounds (d dp : TexturePtr) (t sc : Vector) (r : float) (rc : Vector)
    (f : Flip) (s : Surface) (h : Surface.new d dp t sc r rc f = Except.ok s) :
    s.region_in_bounds = true := by
  cases d with
  | none => simp [Surface.new] at h
  | some tex =>
    simp only [Surface.new, Except.ok.injEq] at h
    subst h
    simp [Surface.region_in_bounds, Texture.bounds, Rect.contains]

theorem from_reader_region_in_bounds (tm : TextureManager) (m : ReaderMapping)
    (rect : Option Rect) (s : Surface) (h : Surface.from_reader tm m rect = Except.ok s) :
    s.region_in_bounds = true := by
  rw [from_reader_eq] at h
  obtain ⟨t, -, h⟩ := bind_ok_inv _ _ _ h
  obtain ⟨sc, -, h⟩ := bind_ok_inv _ _ _ h
  obtain ⟨rc, -, h⟩ := bind_ok_inv _ _ _ h
  obtain ⟨f, -, h⟩ := bind_ok_inv _ _ _ h
  exact new_region_in_bounds _ _ _ _ _ _ _ _ h

theorem from_file_region_in_bounds (tm : TextureManager) (filename : String)
    (rect : Option Rect) (s : Surface) (h : Surface.from_file tm filename rect = Except.ok s) :
    s.region_in_bounds = true := by
  cases rect with
  | none =>
    simp only [Surface.from_file] at h
    exact new_region_in_bounds _ _ _ _ _ _ _ _ h
  | some r =>
    simp only [Surface.from_file] at h
    exact new_region_in_bounds _ _ _ _ _ _ _ _ h

/-- The flip computed by `from_reader` from `flip=[h,v]`, bit by bit. -/
theorem flip_bits (h v : Bool) :
    ((NO_FLIP ^^^ (if h then HORIZONTAL_FLIP else NO_FLIP))
        ^^^ (if v then VERTICAL_FLIP else NO_FLIP)
      = (if h then HORIZONTAL_FLIP else NO_FLIP) ^^^ (if v then VERTICAL_FLIP else NO_FLIP)) ∧
    ((((NO_FLIP ^^^ (if h then HORIZONTAL_FLIP else NO_FLIP))
        ^^^ (if v then VERTICAL_FLIP else NO_FLIP)) &&& HORIZONTAL_FLIP) = HORIZONTAL_FLIP
      ↔ h = true) ∧
    ((((NO_FLIP ^^^ (if h then HORIZONTAL_FLIP else NO_FLIP))
        ^^^ (if v then VERTICAL_FLIP else NO_FLIP)) &&& VERTICAL_FLIP) = VERTICAL_FLIP
      ↔ v = true) := by
  cases h <;> cases v <;> decide

/-! ## Properties of `Surface` -/

/-- C1, evaluated on the code: for the mapping that holds a `diffuse-texture` and no other key,
`from_reader` returns a surface with translate `(0,0)`, rotate `0`, rotate-center `(0,0)` and
flip `NO_FLIP`, but with scale `(0,0)`, the default-constructed `Vector`, not the unit scale
`(1,1)` that `from_file` and `from_texture` pass. -/
theorem from_reader_default_scale :
    Surface.from_reader sample_manager mapping_texture_only none =
        Except.ok
          { m_diffuse_texture := some sample_texture
            m_displacement_texture := none
            m_region := Rect.mk 0 0 64 32
            m_translate := Vector.mk 0 0
            m_scale := Vector.mk 0 0
            m_rotate := 0
            m_rotate_center := Vector.mk 0 0
            m_flip := NO_FLIP } ∧
      Vector.mk 0 0 ≠ Vector.mk 1 1 := by
  refine ⟨rfl, ?_⟩
  intro h
  have hx : (0 : float) = 1 := congrArg Vector.x h
  exact absurd hx (by norm_num)

/-- C2, as stated, fails: the mapping of the round-trip example of the spec has no
`diffuse-texture`, so the constructor dereferences a null texture and no surface is returned;
and with a `diffuse-texture` added, a `rotate-center` list of one element makes `from_reader`
read past the end of that list. -/
theorem from_reader_round_trip_faults :
    Surface.from_reader sample_manager mapping_round_trip none
        = Except.error Fault.null_dereference ∧
      Surface.from_reader sample_manager mapping_short_center none
        = Except.error Fault.out_of_bounds :=
  ⟨rfl, rfl⟩

/-- C2, amended: for every mapping that has a `diffuse-texture`, whose `rotate-center` is
absent or holds at least two elements, and that supplies `translate=[a,b]`, `scale=[c,e]`,
`rotate=r` and `flip=[h,v]`, `from_reader` returns a surface whose translate is `(a,b)`, scale
`(c,e)`, rotate `r`, and whose flip has the horizontal bit set iff `h` and the vertical bit
set iff `v`. -/
theorem from_reader_explicit_fields (tm : TextureManager) (rect : Option Rect)
    (m : ReaderMapping) (d : TextureMapping) (a b c e r : float) (h v : Bool)
    (hd : m.diffuse_texture = some d)
    (hc : ∀ cv, m.rotate_center = some cv → 2 ≤ cv.length)
    (ht : m.translate = some [a, b]) (hs : m.scale = some [c, e])
    (hr : m.rotate = some r) (hf : m.flip = some [h, v]) :
    ∃ s, Surface.from_reader tm m rect = Except.ok s ∧
      s.m_translate = Vector.mk a b ∧ s.m_scale = Vector.mk c e ∧ s.m_rotate = r ∧
      s.m_flip = (if h then HORIZONTAL_FLIP else NO_FLIP)
                  ^^^ (if v then VERTICAL_FLIP else NO_FLIP) ∧
      (s.m_flip &&& HORIZONTAL_FLIP = HORIZONTAL_FLIP ↔ h = true) ∧
      (s.m_flip &&& VERTICAL_FLIP = VERTICAL_FLIP ↔ v = true) := by
  have hc2 : m.rotate_center.all (fun cv => decide (2 ≤ cv.length)) = true := by
    cases hrc : m.rotate_center with
    | none => rfl
    | some cv => simpa using hc cv hrc
  obtain ⟨rc, hrc⟩ := read_vector_ok _ hc2
  have hval : Surface.from_reader tm m rect =
      Except.ok
        { m_diffuse_texture := some (tm.get_mapping d rect)
          m_displacement_texture := m.displacement_texture.map (fun dm => tm.get_mapping dm rect)
          m_region := Rect.mk 0 0 (tm.get_mapping d rect).image_width
            (tm.get_mapping d rect).image_height
          m_translate := Vector.mk a b
          m_scale := Vector.mk c e
          m_rotate := r
          m_rotate_center := rc
          m_flip := (NO_FLIP ^^^ (if h then HORIZONTAL_FLIP else NO_FLIP))
            ^^^ (if v then VERTICAL_FLIP else NO_FLIP) } := by
    rw [from_reader_eq, ht, hs, hr, hf, hd, hrc, read_vector_two, read_vector_two,
      read_flip_two]
    rfl
  exact ⟨_, hval, rfl, rfl, rfl, (flip_bits h v).1, (flip_bits h v).2.1, (flip_bits h v).2.2⟩

/-- The amended C2 at the round-trip example of the spec with a `diffuse-texture` added:
translate `(1,2)`, scale `(3,4)`, rotate `5`, flip `HORIZONTAL_FLIP`. -/
theorem from_reader_explicit_fields_witness :
    ∃ s, Surface.from_reader sample_manager mapping_round_trip_textured none = Except.ok s ∧
      s.m_translate = Vector.mk 1 2 ∧ s.m_scale = Vector.mk 3 4 ∧ s.m_rotate = 5 ∧
      s.m_flip = HORIZONTAL_FLIP :=
  match from_reader_explicit_fields sample_manager none mapping_round_trip_textured ⟨0⟩
      1 2 3 4 5 true false rfl (fun _ hcv => nomatch hcv) rfl rfl rfl rfl with
  | ⟨s, h1, h2, h3, h4, h5, _, _⟩ => ⟨s, h1, h2, h3, h4, h5⟩

/-- C3: for every surface `s` and flip value `f`, `s.clone(f)` has flip `s.flip XOR f`, every
other field equal to that of `s`, and the same width and height as `s`. -/
theorem clone_fields (s : Surface) (f : Flip) :
    (s.clone f).m_flip = s.m_flip ^^^ f ∧
    (s.clone f).m_diffuse_texture = s.m_diffuse_texture ∧
    (s.clone f).m_displacement_texture = s.m_displacement_texture ∧
    (s.clone f).m_region = s.m_region ∧
    (s.clone f).m_translate = s.m_translate ∧
    (s.clone f).m_scale = s.m_scale ∧
    (s.clone f).m_rotate = s.m_rotate ∧
    (s.clone f).m_rotate_center = s.m_rotate_center ∧
    (s.clone f).get_width = s.get_width ∧
    (s.clone f).get_height = s.get_height :=
  ⟨rfl, rfl, rfl, rfl, rfl, rfl, rfl, rfl, rfl, rfl⟩

/-- C4: cloning twice with the same flip gives back the surface, field for field; in
particular the flip state is that of the original. -/
theorem clone_clone (s : Surface) (f : Flip) :
    (s.clone f).clone f = s ∧ ((s.clone f).clone f).m_flip = s.m_flip := by
  have hflip : (s.m_flip ^^^ f) ^^^ f = s.m_flip := by
    rw [Nat.xor_assoc, Nat.xor_self, Nat.xor_zero]
  have h : (s.clone f).clone f = s := by
    cases s
    simp only [Surface.clone, Surface.new_region] at hflip ⊢
    rw [hflip]
  exact ⟨h, by rw [h]⟩

/-- C5: for every surface `s` and rectangle `r`, `s.region(r)` has the width and the height
of `r`, whatever the region of `s` and the size of its texture: `get_width()` is the `int`
that `r.get_width()` is and `get_height()` the `int` that `r.get_height()` is, which are
`right - left` and `bottom - top` whenever these differences fit in an `int`. -/
theorem region_size (s : Surface) (r : Rect) :
    (s.region r).get_width = r.get_width ∧ (s.region r).get_height = r.get_height ∧
    (-2147483648 ≤ r.right.val - r.left.val ∧ r.right.val - r.left.val ≤ 2147483647 →
      (s.region r).get_width.val = r.right.val - r.left.val) ∧
    (-2147483648 ≤ r.bottom.val - r.top.val ∧ r.bottom.val - r.top.val ≤ 2147483647 →
      (s.region r).get_height.val = r.bottom.val - r.top.val) :=
  ⟨rfl, rfl, fun h => to_int_val_of_fits _ h.1 h.2, fun h => to_int_val_of_fits _ h.1 h.2⟩

/-- C5 on a surface of the 64 x 32 sample texture cut to the rectangle `(16, 8, 48, 24)`: the
result is 32 wide and 16 high. -/
theorem region_size_witness :
    ((Surface.new_region (some sample_texture) none (Rect.mk 0 0 64 32) (Vector.mk 0 0)
        (Vector.mk 1 1) 0 (Vector.mk 0 0) NO_FLIP).region (Rect.mk 16 8 48 24)).get_width.val
      = 32 ∧
    ((Surface.new_region (some sample_texture) none (Rect.mk 0 0 64 32) (Vector.mk 0 0)
        (Vector.mk 1 1) 0 (Vector.mk 0 0) NO_FLIP).region (Rect.mk 16 8 48 24)).get_height.val
      = 16 :=
  ⟨(region_size _ (Rect.mk 16 8 48 24)).2.2.1 ⟨by decide, by decide⟩,
   (region_size _ (Rect.mk 16 8 48 24)).2.2.2 ⟨by decide, by decide⟩⟩

/-- C6: `region` changes nothing but the source rectangle. When `s` is the object at address
`self`, the call `self->region(r)` succeeds and returns a fresh address holding a surface with
region `r` and with the diffuse texture, displacement texture, translate, scale, rotate,
rotate-center and flip of `s`; every object allocated before the call, `s` included, is left
as it was. -/
theorem region_frame (store : SurfaceStore) (self : Nat) (s : Surface) (r : Rect)
    (hs : store[self]? = some s) :
    ∃ store2 fresh s2, store.region self r = Except.ok (store2, fresh) ∧
      store2[fresh]? = some s2 ∧ s2 = s.region r ∧
      s2.m_region = r ∧
      s2.m_diffuse_texture = s.m_diffuse_texture ∧
      s2.m_displacement_texture = s.m_displacement_texture ∧
      s2.m_translate = s.m_translate ∧
      s2.m_scale = s.m_scale ∧
      s2.m_rotate = s.m_rotate ∧
      s2.m_rotate_center = s.m_rotate_center ∧
      s2.m_flip = s.m_flip ∧
      store2[self]? = some s ∧
      (∀ (p : Nat) (old : Surface), store[p]? = some old → store2[p]? = some old) := by
  have keep : ∀ (p : Nat) (old : Surface), store[p]? = some old →
      (store ++ [s.region r])[p]? = some old := by
    intro p old hp
    have hlt : p < store.length := by
      by_contra hge
      rw [List.getElem?_eq_none (Nat.le_of_not_lt hge)] at hp
      exact absurd hp (by simp)
    rw [List.getElem?_append_left hlt]
    exact hp
  refine ⟨store ++ [s.region r], store.length, s.region r, ?_, ?_, rfl, rfl, rfl, rfl, rfl,
    rfl, rfl, rfl, rfl, keep self s hs, keep⟩
  · simp only [SurfaceStore.region, hs]
  · simp

/-- The frame property of C6 on a store of two surfaces. -/
theorem region_frame_witness :
    ∃ store2 fresh s2,
      SurfaceStore.region
          [Surface.new_region (some sample_texture) none (Rect.mk 0 0 64 32)
             (Vector.mk 1 2) (Vector.mk 3 4) 5 (Vector.mk 0 0) HORIZONTAL_FLIP,
           Surface.new_region (some sample_texture) none (Rect.mk 0 0 8 8)
             (Vector.mk 0 0) (Vector.mk 1 1) 0 (Vector.mk 0 0) NO_FLIP]
          0 (Rect.mk 16 8 32 24) = Except.ok (store2, fresh) ∧
      store2[fresh]? = some s2 ∧
      s2.m_region = Rect.mk 16 8 32 24 ∧
      s2.m_translate = Vector.mk 1 2 ∧
      s2.m_flip = HORIZONTAL_FLIP ∧
      store2[0]? = some (Surface.new_region (some sample_texture) none (Rect.mk 0 0 64 32)
             (Vector.mk 1 2) (Vector.mk 3 4) 5 (Vector.mk 0 0) HORIZONTAL_FLIP) :=
  match region_frame
      [Surface.new_region (some sample_texture) none (Rect.mk 0 0 64 32)
         (Vector.mk 1 2) (Vector.mk 3 4) 5 (Vector.mk 0 0) HORIZONTAL_FLIP,
       Surface.new_region (some sample_texture) none (Rect.mk 0 0 8 8)
         (Vector.mk 0 0) (Vector.mk 1 1) 0 (Vector.mk 0 0) NO_FLIP]
      0 _ (Rect.mk 16 8 32 24) rfl with
  | ⟨store2, fresh, s2, h1, h2, _, h4, _, _, h7, _, _, _, h11, h12, _⟩ =>
    ⟨store2, fresh, s2, h1, h2, h4, h7, h11, h12⟩

/-- C7: for every texture `t`, `from_texture(t)` returns the surface with diffuse texture `t`,
no displacement texture, translate `(0,0)`, scale `(1,1)`, rotate `0`, rotate-center `(0,0)`,
flip `NO_FLIP` and region `(0, 0, t.image_width, t.image_height)`, whose width and height are
the image size of `t`; and `from_file` returns a surface with these same transform fields both
with and without a sub-rectangle. -/
theorem from_texture_identity (t : Texture) (tm : TextureManager) (filename : String)
    (r : Rect) :
    (∃ s, Surface.from_texture (some t) = Except.ok s ∧
      s.m_diffuse_texture = some t ∧ s.m_displacement_texture = none ∧
      s.m_translate = Vector.mk 0 0 ∧ s.m_scale = Vector.mk 1 1 ∧ s.m_rotate = 0 ∧
      s.m_rotate_center = Vector.mk 0 0 ∧ s.m_flip = NO_FLIP ∧
      s.m_region = Rect.mk 0 0 t.image_width t.image_height ∧
      s.get_width = t.image_width ∧ s.get_height = t.image_height) ∧
    (∃ s1 s2, Surface.from_file tm filename (some r) = Except.ok s1 ∧
      Surface.from_file tm filename none = Except.ok s2 ∧
      s1.m_translate = Vector.mk 0 0 ∧ s1.m_scale = Vector.mk 1 1 ∧ s1.m_rotate = 0 ∧
      s1.m_rotate_center = Vector.mk 0 0 ∧ s1.m_flip = NO_FLIP ∧
      s2.m_translate = s1.m_translate ∧ s2.m_scale = s1.m_scale ∧
      s2.m_rotate = s1.m_rotate ∧ s2.m_rotate_center = s1.m_rotate_center ∧
      s2.m_flip = s1.m_flip) := by
  refine ⟨⟨_, rfl, rfl, rfl, rfl, rfl, rfl, rfl, rfl, rfl, ?_, ?_⟩,
    ⟨_, _, rfl, rfl, rfl, rfl, rfl, rfl, rfl, rfl, rfl, rfl, rfl, rfl⟩⟩
  · exact to_int_sub_zero t.image_width
  · exact to_int_sub_zero t.image_height

/-- C8, as stated, fails: the surface made by `from_texture` from the 64 x 32 sample texture,
then cut by `region` to the rectangle `(0, 0, 128, 128)`, is obtainable through the public
operations and its region does not lie within the bounds of its texture. -/
theorem obtainable_region_out_of_bounds :
    ∃ s, Obtainable sample_manager (fun _ _ => true) s ∧ s.region_in_bounds = false ∧
      Surface.from_texture (some sample_texture) = Except.ok
        (Surface.new_region (some sample_texture) none (Rect.mk 0 0 64 32) (Vector.mk 0 0)
          (Vector.mk 1 1) 0 (Vector.mk 0 0) NO_FLIP) ∧
      s = (Surface.new_region (some sample_texture) none (Rect.mk 0 0 64 32) (Vector.mk 0 0)
          (Vector.mk 1 1) 0 (Vector.mk 0 0) NO_FLIP).region (Rect.mk 0 0 128 128) :=
  ⟨_, Obtainable.region _ (Rect.mk 0 0 128 128)
        (Obtainable.of_texture (some sample_texture) _ rfl) rfl,
    rfl, rfl, rfl⟩

/-- C8, amended: every surface obtained through `from_texture`, `from_file` or `from_reader`,
then any sequence of `clone` calls with arbitrary flips and of `region` calls whose rectangle
lies within the pixel bounds of the diffuse texture, has its region within the pixel bounds
`(0, 0, image_width, image_height)` of its diffuse texture. -/
theorem obtainable_region_in_bounds (tm : TextureManager) (s : Surface)
    (h : Obtainable tm Surface.rect_in_bounds s) : s.region_in_bounds = true := by
  induction h with
  | of_texture texture s hs => exact new_region_in_bounds _ _ _ _ _ _ _ _ hs
  | of_file filename rect s hs => exact from_file_region_in_bounds tm filename rect s hs
  | of_reader mapping rect s hs => exact from_reader_region_in_bounds tm mapping rect s hs
  | clone s flip _ ih => exact ih
  | region s rect _ hrect _ => exact hrect

/-- The amended C8 on a surface read from a mapping, flipped, then cut to a rectangle inside
the 64 x 32 sample texture. -/
theorem obtainable_region_in_bounds_witness :
    Surface.region_in_bounds
      ((Surface.clone
          (Surface.new_region (some sample_texture) none (Rect.mk 0 0 64 32) (Vector.mk 0 0)
            (Vector.mk 0 0) 0 (Vector.mk 0 0) NO_FLIP) VERTICAL_FLIP).region
        (Rect.mk 16 8 32 24)) = true :=
  obtainable_region_in_bounds sample_manager _
    (Obtainable.region _ (Rect.mk 16 8 32 24)
      (Obtainable.clone _ VERTICAL_FLIP
        (Obtainable.of_reader mapping_texture_only none _ rfl)) rfl)

/-- C10: when every list-valued key that is present (`translate`, `scale`, `rotate-center`,
`flip`) holds at least two elements, `from_reader` does not read a list out of bounds; and
there is a mapping in which one of these keys is present with fewer than two elements on which
`from_reader` reads out of bounds (it neither rejects the mapping nor falls back to the
default). The last part adds that this happens on every such mapping. -/
theorem from_reader_bounds (tm : TextureManager) (rect : Option Rect) :
    (∀ m : ReaderMapping, m.lists_have_two = true →
      Surface.from_reader tm m rect ≠ Except.error Fault.out_of_bounds) ∧
    (∃ m : ReaderMapping, m.translate = some [1] ∧ m.lists_have_two = false ∧
      Surface.from_reader tm m rect = Except.error Fault.out_of_bounds) ∧
    (∀ m : ReaderMapping, m.lists_have_two = false →
      Surface.from_reader tm m rect = Except.error Fault.out_of_bounds) := by
  refine ⟨?_, ?_, ?_⟩
  · intro m hm
    simp only [ReaderMapping.lists_have_two, Bool.and_eq_true] at hm
    obtain ⟨⟨⟨ht, hsc⟩, hrc⟩, hf⟩ := hm
    obtain ⟨t, ht⟩ := read_vector_ok _ ht
    obtain ⟨sc, hsc⟩ := read_vector_ok _ hsc
    obtain ⟨rc, hrc⟩ := read_vector_ok _ hrc
    obtain ⟨f, hf⟩ := read_flip_ok _ hf
    rw [from_reader_eq, ht, hsc, hrc, hf]
    exact new_ne_out_of_bounds _ _ _ _ _ _ _
  · refine ⟨mapping_short_translate, rfl, rfl, ?_⟩
    rw [from_reader_eq]
    rfl
  · intro m hm
    rw [from_reader_eq]
    cases ht : m.translate.all (fun v => decide (2 ≤ v.length)) with
    | false => rw [read_vector_short _ ht]; rfl
    | true =>
      obtain ⟨t, ht2⟩ := read_vector_ok _ ht
      rw [ht2]
      cases hsc : m.scale.all (fun v => decide (2 ≤ v.length)) with
      | false => rw [read_vector_short _ hsc]; rfl
      | true =>
        obtain ⟨sc, hsc2⟩ := read_vector_ok _ hsc
        rw [hsc2]
        cases hrc : m.rotate_center.all (fun v => decide (2 ≤ v.length)) with
        | false => rw [read_vector_short _ hrc]; rfl
        | true =>
          obtain ⟨rc, hrc2⟩ := read_vector_ok _ hrc
          rw [hrc2]
          cases hf : m.flip.all (fun v => decide (2 ≤ v.length)) with
          | false => rw [read_flip_short _ hf]; rfl
          | true =>
            simp [ReaderMapping.lists_have_two, ht, hsc, hrc, hf] at hm

/-- C10 on two mappings: the round-trip example with a texture is read within bounds, and
this is an instance of the first half of the statement. -/
theorem from_reader_bounds_witness :
    mapping_round_trip_textured.lists_have_two = true ∧
      Surface.from_reader sample_manager mapping_round_trip_textured none
        ≠ Except.error Fault.out_of_bounds :=
  ⟨rfl, (from_reader_bounds sample_manager none).1 mapping_round_trip_textured rfl⟩

/-! ## Properties of `Canvas` -/

theorem insert_by_layer_perm (x : DrawingRequest) (l : List DrawingRequest) :
    (Canvas.insert_by_layer x l).Perm (x :: l) := by
  induction l with
  | nil => exact List.Perm.refl _
  | cons y ys ih =>
    unfold Canvas.insert_by_layer
    split
    · exact List.Perm.refl _
    · exact (List.Perm.cons y ih).trans (List.Perm.swap x y ys)

theorem sort_by_layer_perm (l : List DrawingRequest) : (Canvas.sort_by_layer l).Perm l := by
  induction l with
  | nil => exact List.Perm.refl _
  | cons y ys ih =>
    unfold Canvas.sort_by_layer
    exact (insert_by_layer_perm y _).trans (List.Perm.cons y ih)

theorem insert_by_layer_sorted (x : DrawingRequest) (l : List DrawingRequest)
    (hl : l.Pairwise (fun a b => a.layer ≤ b.layer)) :
    (Canvas.insert_by_layer x l).Pairwise (fun a b => a.layer ≤ b.layer) := by
  induction l with
  | nil => simp [Canvas.insert_by_layer]
  | cons y ys ih =>
    have hy := List.pairwise_cons.mp hl
    unfold Canvas.insert_by_layer
    split
    · rename_i hxy
      refine List.pairwise_cons.mpr ⟨?_, hl⟩
      intro b hb
      rcases List.mem_cons.mp hb with rfl | hb
      · exact hxy
      · exact le_trans hxy (hy.1 b hb)
    · rename_i hxy
      refine List.pairwise_cons.mpr ⟨?_, ih hy.2⟩
      intro b hb
      have hb2 : b ∈ x :: ys := (insert_by_layer_perm x ys).subset hb
      rcases List.mem_cons.mp hb2 with rfl | hb2
      · exact le_of_lt (lt_of_not_le hxy)
      · exact hy.1 b hb2

theorem sort_by_layer_sorted (l : List DrawingRequest) :
    (Canvas.sort_by_layer l).Pairwise (fun a b => a.layer ≤ b.layer) := by
  induction l with
  | nil => simp [Canvas.sort_by_layer]
  | cons y ys ih =>
    unfold Canvas.sort_by_layer
    exact insert_by_layer_sorted y _ ih

/-- Inserting a request leaves the sequence of requests of every layer as it would be with the
request put in front. -/
theorem insert_by_layer_filter (x : DrawingRequest) (l : List DrawingRequest) (layer : Int) :
    (Canvas.insert_by_layer x l).filter (fun r => decide (r.layer = layer)) =
      (x :: l).filter (fun r => decide (r.layer = layer)) := by
  induction l with
  | nil => rfl
  | cons y ys ih =>
    unfold Canvas.insert_by_layer
    split
    · rfl
    · rename_i hxy
      have hne : y.layer ≠ x.layer := fun h => hxy (le_of_eq h.symm)
      rw [List.filter_cons, ih]
      by_cases hx : x.layer = layer
      · have hyl : ¬ y.layer = layer := fun h => hne (h.trans hx.symm)
        simp [List.filter_cons, hx, hyl]
      · simp [List.filter_cons, hx]

theorem sort_by_layer_filter (l : List DrawingRequest) (layer : Int) :
    (Canvas.sort_by_layer l).filter (fun r => decide (r.layer = layer)) =
      l.filter (fun r => decide (r.layer = layer)) := by
  induction l with
  | nil => rfl
  | cons y ys ih =>
    unfold Canvas.sort_by_layer
    rw [insert_by_layer_filter, List.filter_cons, List.filter_cons, ih]

theorem draw_all_requests (canvas : Canvas) (requests : List DrawingRequest) :
    (draw_all canvas requests).m_requests = canvas.m_requests ++ requests := by
  induction requests generalizing canvas with
  | nil => simp [draw_all]
  | cons r rs ih =>
    have h := ih (canvas.draw r)
    simp only [draw_all, List.foldl_cons] at h ⊢
    rw [h]
    simp [Canvas.draw]

theorem filter_selects_all (l : List DrawingRequest) :
    l.filter (Canvas.selects Canvas.Filter.ALL) = l := by
  induction l with
  | nil => rfl
  | cons y ys ih => simp [List.filter_cons, Canvas.selects]

/-- C9: for every sequence of `draw_*` calls issued on a canvas after a `clear()`,
`render(r, ALL)` submits to the renderer exactly the requests drawn (a rearrangement of them),
in non-decreasing layer order, and for every layer the requests of that layer are submitted
in the order in which they were drawn. -/
theorem render_all_layer_order (canvas : Canvas) (requests : List DrawingRequest)
    (renderer : Renderer) :
    ∃ submitted,
      (draw_all canvas.clear requests).render renderer Canvas.Filter.ALL
        = renderer ++ submitted ∧
      submitted.Perm requests ∧
      submitted.Pairwise (fun a b => a.layer ≤ b.layer) ∧
      ∀ layer : Int, submitted.filter (fun r => decide (r.layer = layer))
        = requests.filter (fun r => decide (r.layer = layer)) := by
  have hreq : (draw_all canvas.clear requests).m_requests = requests := by
    rw [draw_all_requests]
    simp [Canvas.clear]
  refine ⟨Canvas.sort_by_layer requests, ?_, sort_by_layer_perm requests,
    sort_by_layer_sorted requests, sort_by_layer_filter requests⟩
  simp only [Canvas.render, hreq, filter_selects_all]

end SuperTux
